import Mathlib

/-!
Shallow embedding of the update subsystem of `Godi13/mirror`
(`src-tauri/src/lib.rs`) and proofs about it.

Conventions of the embedding:
* Rust `&str` values become Lean `String`; Rust byte indices become
  character indices (every string constant involved is ASCII, and UTF-8
  byte order coincides with code-point order, so lexicographic
  comparisons agree).
* Fallible Rust functions returning `Result<T, E>` become
  `Except String T`; `Option` stays `Option`.
* Network and clock effects are made explicit: each function that
  performs I/O takes the outcome of its external calls as a parameter
  and returns, besides its result, the updated cache and the number of
  times each network strategy was consulted.
* `u64` arithmetic is `Nat` with an explicit `< 2 ^ 64` bound where the
  source (the `semver` crate) checks for overflow.
-/

deriving instance DecidableEq for Except

namespace Mirror

/-! ### Basic string machinery (Rust `str` ordering) -/

/-- Lexicographic comparison of character lists by code point.  This is
the order Rust's `str::cmp` induces: Rust compares UTF-8 bytes, and
UTF-8 byte order coincides with code-point order. -/
def listCharCmp : List Char → List Char → Ordering
  | [], [] => Ordering.eq
  | [], _ :: _ => Ordering.lt
  | _ :: _, [] => Ordering.gt
  | a :: as, b :: bs =>
    if a.toNat < b.toNat then Ordering.lt
    else if b.toNat < a.toNat then Ordering.gt
    else listCharCmp as bs

/-- Rust `latest > current` on `&str` (byte-lexicographic). -/
def strGt (a b : String) : Bool :=
  match listCharCmp a.data b.data with
  | Ordering.gt => true
  | _ => false

/-! ### The `semver` crate's data model

`compare_versions` in the source uses `semver::Version::parse` and the
`Ord` instance of `semver::Version` (dtolnay's `semver` crate, v1).
Pre-release and build metadata are kept as their dot-separated
identifier lists; the empty list means "absent". -/

structure Version where
  major : Nat
  minor : Nat
  patch : Nat
  pre : List String
  build : List String
deriving DecidableEq, Repr

/-- `lhs.bytes().all(|b| b.is_ascii_digit())` on an identifier segment
(vacuously true on the empty string, as in the source). -/
def segAllDigits (s : String) : Bool := s.data.all Char.isDigit

/-- Byte-lexicographic comparison of two ASCII identifier segments
(`Ordering::cmp(lhs.as_bytes(), rhs.as_bytes())`). -/
def segStrCmp (a b : String) : Ordering := listCharCmp a.data b.data

/-- Comparison of one pre-release identifier against another, following
`semver`'s `Ord for Prerelease`: numeric identifiers are below
alphanumeric ones; two numeric identifiers compare by length then
bytes (equivalent to numeric value, since pre-release numerics carry no
leading zeros); two alphanumeric identifiers compare byte-wise. -/
def preSegCmp (l r : String) : Ordering :=
  match segAllDigits l, segAllDigits r with
  | true, true =>
    match compare l.data.length r.data.length with
    | Ordering.eq => segStrCmp l r
    | o => o
  | true, false => Ordering.lt
  | false, true => Ordering.gt
  | false, false => segStrCmp l r

/-- The identifier-list loop of `Ord for Prerelease`: exhausting the
right list first means greater, exhausting the left first means less. -/
def preListCmp : List String → List String → Ordering
  | [], [] => Ordering.eq
  | _ :: _, [] => Ordering.gt
  | [], _ :: _ => Ordering.lt
  | l :: ls, r :: rs =>
    match preSegCmp l r with
    | Ordering.eq => preListCmp ls rs
    | o => o

/-- `Ord for Prerelease`: a real release (empty pre-release) compares
greater than any pre-release. -/
def prereleaseCmp (l r : List String) : Ordering :=
  match l, r with
  | [], [] => Ordering.eq
  | [], _ :: _ => Ordering.gt
  | _ :: _, [] => Ordering.lt
  | _ :: _, _ :: _ => preListCmp l r

/-- `trim_start_matches('0')` on a segment. -/
def trimStartZeros (s : String) : String :=
  String.mk (s.data.dropWhile (fun c => c == '0'))

/-- Comparison of one build-metadata identifier against another,
following `semver`'s `Ord for BuildMetadata`: numeric identifiers
(leading zeros allowed here) compare by zero-trimmed value and then by
raw length, and sit below alphanumeric identifiers. -/
def buildSegCmp (l r : String) : Ordering :=
  match segAllDigits l, segAllDigits r with
  | true, true =>
    let lv := trimStartZeros l
    let rv := trimStartZeros r
    match compare lv.data.length rv.data.length with
    | Ordering.eq =>
      match segStrCmp lv rv with
      | Ordering.eq => compare l.data.length r.data.length
      | o => o
    | o => o
  | true, false => Ordering.lt
  | false, true => Ordering.gt
  | false, false => segStrCmp l r

/-- The identifier-list loop of `Ord for BuildMetadata`. -/
def buildListCmp : List String → List String → Ordering
  | [], [] => Ordering.eq
  | _ :: _, [] => Ordering.gt
  | [], _ :: _ => Ordering.lt
  | l :: ls, r :: rs =>
    match buildSegCmp l r with
    | Ordering.eq => buildListCmp ls rs
    | o => o

/-- `Ord for BuildMetadata`.  The crate stores build metadata as a raw
string and compares `as_str().split('.')`; an absent build (`EMPTY`,
the empty string) therefore splits into the single empty segment. -/
def buildCmp (l r : List String) : Ordering :=
  buildListCmp (if l.isEmpty then [""] else l) (if r.isEmpty then [""] else r)

/-- `Ord for semver::Version`: major, minor, patch numerically, then
pre-release precedence, then build metadata as the final tiebreaker
(so that the order is consistent with structural equality). -/
def Version.cmp (a b : Version) : Ordering :=
  match compare a.major b.major with
  | Ordering.eq =>
    match compare a.minor b.minor with
    | Ordering.eq =>
      match compare a.patch b.patch with
      | Ordering.eq =>
        match prereleaseCmp a.pre b.pre with
        | Ordering.eq => buildCmp a.build b.build
        | o => o
      | o => o
    | o => o
  | o => o

/-- Rust `a > b` on `semver::Version`. -/
def versionGtBool (a b : Version) : Bool :=
  match Version.cmp a b with
  | Ordering.gt => true
  | _ => false

/-! ### The `semver` crate's strict parser (`Version::parse`) -/

/-- `u64::MAX + 1`: the crate's numeric identifiers are checked `u64`. -/
def U64_BOUND : Nat := 2 ^ 64

/-- `numeric_identifier` of the crate: a non-empty run of ASCII digits,
no leading zero (except the single digit `0`), value within `u64`. -/
def parseNumericIdent (cs : List Char) : Option (Nat × List Char) :=
  let ds := cs.takeWhile Char.isDigit
  let rest := cs.dropWhile Char.isDigit
  if ds.isEmpty then none
  else if ds.length > 1 && ds.head? == some '0' then none
  else
    let v := ds.foldl (fun acc c => acc * 10 + (c.toNat - 48)) 0
    if v < U64_BOUND then some (v, rest) else none

/-- `dot`: consume an expected single character. -/
def expectChar (c : Char) : List Char → Option (List Char)
  | x :: rest => if x == c then some rest else none
  | [] => none

/-- Characters allowed inside pre-release/build identifiers:
`[0-9A-Za-z-]`. -/
def isIdentChar (c : Char) : Bool := c.isAlpha || c.isDigit || c == '-'

/-- The `identifier` loop of the crate for one or more dot-separated
segments.  Each segment must be a non-empty run of identifier
characters; in pre-release position a multi-digit all-numeric segment
must not start with `0`.  Fuel is an upper bound on recursion depth
(each step consumes at least one character plus a dot). -/
def parseSegsAux (isPre : Bool) : Nat → List Char → Option (List String × List Char)
  | 0, _ => none
  | Nat.succ fuel, cs =>
    let seg := cs.takeWhile isIdentChar
    let rest := cs.dropWhile isIdentChar
    if seg.isEmpty then none
    else if isPre && seg.length > 1 && seg.all Char.isDigit && seg.head? == some '0' then
      none
    else
      match rest with
      | '.' :: rest2 =>
        match parseSegsAux isPre fuel rest2 with
        | some (segs, r) => some (String.mk seg :: segs, r)
        | none => none
      | _ => some ([String.mk seg], rest)

/-- Dot-separated identifier segments, stopping at the first character
outside the identifier alphabet. -/
def parseSegs (isPre : Bool) (cs : List Char) : Option (List String × List Char) :=
  parseSegsAux isPre (cs.length + 1) cs

/-- `semver::Version::parse`: strict `major.minor.patch` with optional
`-pre` and `+build`, the whole input consumed. -/
def parseVersion (text : String) : Option Version :=
  let cs := text.data
  if cs.isEmpty then none else
  match parseNumericIdent cs with
  | none => none
  | some (major, r1) =>
    match expectChar '.' r1 with
    | none => none
    | some r2 =>
      match parseNumericIdent r2 with
      | none => none
      | some (minor, r3) =>
        match expectChar '.' r3 with
        | none => none
        | some r4 =>
          match parseNumericIdent r4 with
          | none => none
          | some (patch, r5) =>
            if r5.isEmpty then some ⟨major, minor, patch, [], []⟩ else
            match (match r5 with
                   | '-' :: r6 => parseSegs true r6
                   | _ => some ([], r5)) with
            | none => none
            | some (pre, r7) =>
              match (match r7 with
                     | '+' :: r8 => parseSegs false r8
                     | _ => some ([], r7)) with
              | none => none
              | some (build, r9) =>
                if r9.isEmpty then some ⟨major, minor, patch, pre, build⟩ else none

/-! ### `compare_versions` (lib.rs lines 212-225) -/

/-- `compare_versions(current, latest)`: semver comparison when both
parse, otherwise `current != latest && latest > current` on raw
strings. -/
def compare_versions (current latest : String) : Bool :=
  match parseVersion current, parseVersion latest with
  | some current_ver, some latest_ver => versionGtBool latest_ver current_ver
  | _, _ => (current != latest) && strGt latest current

/-! ### Release data model (lib.rs lines 8-38) -/

structure GitHubRelease where
  tag_name : String
  html_url : String
  name : String
  body : String
deriving DecidableEq, Repr

structure VersionInfo where
  current : String
  latest : String
  has_update : Bool
  download_url : Option String
deriving DecidableEq, Repr

/-- `chrono::Duration::minutes(m)` in seconds; timestamps
(`DateTime<Utc>`) are modelled as integer seconds. -/
def minutesDur (m : Int) : Int := 60 * m

structure CachedRelease where
  release : GitHubRelease
  cached_at : Int
deriving DecidableEq, Repr

/-- The global `HashMap<String, CachedRelease>` cache, as an
association list whose `insert` replaces any previous binding. -/
abbrev Cache := List (String × CachedRelease)

def cacheGet (c : Cache) (k : String) : Option CachedRelease :=
  match c.find? (fun p => p.1 == k) with
  | some p => some p.2
  | none => none

def cacheInsert (c : Cache) (k : String) (v : CachedRelease) : Cache :=
  (k, v) :: c.filter (fun p => !(p.1 == k))

/-! ### `extract_version_from_html` (lib.rs lines 198-210) -/

/-- The fixed path substring the scraper looks for.  It is 28
characters long; the source skips `start + 29` characters. -/
def TAG_PATH : List Char := "/Godi13/mirror/releases/tag/".data

/-- `str::find` for a substring: index of the first occurrence. -/
def findSubstrPos (pat : List Char) : List Char → Option Nat
  | [] => if pat.isEmpty then some 0 else none
  | c :: rest =>
    if pat.isPrefixOf (c :: rest) then some 0
    else (findSubstrPos pat rest).map (fun n => n + 1)

/-- `extract_version_from_html`: find the tag path, skip 29
characters (the 28-character path plus one more), then take everything
up to the next `"`; succeed if that is non-empty. -/
def extract_version_from_html (html : String) : Option String :=
  match findSubstrPos TAG_PATH html.data with
  | some start =>
    let substr := html.data.drop (start + 29)
    match substr.findIdx? (fun c => c == '"') with
    | some endIdx =>
      let version := substr.take endIdx
      if !version.isEmpty then some (String.mk version) else none
    | none => none
  | none => none

/-! ### `try_github_api` (lib.rs lines 128-155) -/

/-- The response of the structured API call, with the pieces the
source inspects: status, the `x-ratelimit-remaining` header, the body
text, and the result of deserializing the body as a `GitHubRelease`. -/
structure HttpResponse where
  status : Nat
  ratelimit_remaining : Option String
  body : String
  payload : Option GitHubRelease
deriving DecidableEq, Repr

/-- `StatusCode::is_success()`: `200..=299`. -/
def statusIsSuccess (s : Nat) : Bool := 200 ≤ s && s ≤ 299

/-- Display of a status code.  (reqwest's `Display` renders the
decimal code followed by a canonical reason phrase; we render the
decimal code, which is the part the proofs rely on.) -/
def statusDisplay (status : Nat) : String := Nat.repr status

/-- The 403 header check: `x-ratelimit-remaining` present and `"0"`. -/
def rateLimitRemainingZero (resp : HttpResponse) : Bool :=
  match resp.ratelimit_remaining with
  | some remaining => remaining == "0"
  | none => false

def rateLimitErrMsg : String := "GitHub API rate limit exceeded"

def try_github_api (resp : HttpResponse) : Except String GitHubRelease :=
  if resp.status == 403 && rateLimitRemainingZero resp then
    Except.error rateLimitErrMsg
  else if !statusIsSuccess resp.status then
    Except.error ("GitHub API error: " ++ statusDisplay resp.status ++ " - " ++ resp.body)
  else
    match resp.payload with
    | some release => Except.ok release
    | none => Except.error "error decoding response body"

/-! ### `try_scrape_releases_page` / `try_alternative_sources`
(lib.rs lines 157-195) -/

/-- The releases-page fetch: its status and the returned markup. -/
structure ScrapeEnv where
  status : Nat
  html : String
deriving DecidableEq, Repr

def try_scrape_releases_page (env : ScrapeEnv) : Except String GitHubRelease :=
  if !statusIsSuccess env.status then
    Except.error ("Failed to fetch releases page: " ++ statusDisplay env.status)
  else
    match extract_version_from_html env.html with
    | some version =>
      Except.ok ⟨version,
        "https://github.com/Godi13/mirror/releases/tag/" ++ version,
        "Mirror " ++ version,
        "Retrieved from releases page"⟩
    | none => Except.error "Could not extract version from releases page"

def try_alternative_sources (scrapeRes : Except String GitHubRelease) :
    Except String GitHubRelease :=
  match scrapeRes with
  | Except.ok release => Except.ok release
  | Except.error _ => Except.error "All alternative sources failed"

/-! ### `fetch_latest_release` (lib.rs lines 82-125) -/

def allFailedMsg : String :=
  "All update check methods failed. This could be due to network issues or GitHub API rate limits. Please try again later."

/-- Everything external that one `fetch_latest_release` call can
observe: the current time and the outcomes the two network strategies
would produce if consulted. -/
structure FetchEnv where
  now : Int
  api_result : Except String GitHubRelease
  alt_result : Except String GitHubRelease

/-- The call's result together with the cache it leaves behind and how
many times each network strategy was consulted. -/
structure FetchOutcome where
  result : Except String GitHubRelease
  cache : Cache
  api_calls : Nat
  alt_calls : Nat

def fetch_latest_release (env : FetchEnv) (cache : Cache) : FetchOutcome :=
  let cache_key := "latest_release"
  let fromNetwork : FetchOutcome :=
    match env.api_result with
    | Except.ok release =>
      ⟨Except.ok release, cacheInsert cache cache_key ⟨release, env.now⟩, 1, 0⟩
    | Except.error _ =>
      match env.alt_result with
      | Except.ok release => ⟨Except.ok release, cache, 1, 1⟩
      | Except.error _ => ⟨Except.error allFailedMsg, cache, 1, 1⟩
  match cacheGet cache cache_key with
  | some cached =>
    let ten_minutes_ago := env.now - minutesDur 10
    if cached.cached_at > ten_minutes_ago then
      ⟨Except.ok cached.release, cache, 0, 0⟩
    else fromNetwork
  | none => fromNetwork

/-! ### `check_for_updates` (lib.rs lines 53-80) -/

/-- `trim_start_matches('v')`: repeatedly strip a leading `v`. -/
def trimStartMatchesV (s : String) : String :=
  String.mk (s.data.dropWhile (fun c => c == 'v'))

/-- `check_for_updates`, with the resolver outcome and the build-time
current version (`CARGO_PKG_VERSION`) passed explicitly. -/
def check_for_updates (fetchRes : Except String GitHubRelease)
    (current_version : String) : Except String VersionInfo :=
  match fetchRes with
  | Except.ok release =>
    let latest_version := trimStartMatchesV release.tag_name
    let has_update := compare_versions current_version latest_version
    Except.ok ⟨current_version, latest_version, has_update,
      if has_update then some release.html_url else none⟩
  | Except.error e => Except.error ("Failed to fetch latest release: " ++ e)

/-! ### `trigger_update_check` (lib.rs lines 227-274) -/

/-- `trigger_update_check`, with the outcome of its
`check_for_updates()` call and of its `download_and_install_update()`
call passed explicitly (the latter is consulted only when an update is
available). -/
def trigger_update_check (checkRes : Except String VersionInfo)
    (installRes : Except String String) : Except String String :=
  match checkRes with
  | Except.ok version_info =>
    if version_info.has_update then
      let result := "发现新版本！当前版本: " ++ version_info.current ++
        ", 最新版本: " ++ version_info.latest
      match installRes with
      | Except.ok install_result => Except.ok (result ++ "\n" ++ install_result)
      | Except.error e =>
        match version_info.download_url with
        | some download_url =>
          Except.ok (result ++ "\n自动安装失败: " ++ e ++ "\n请手动下载安装: " ++ download_url)
        | none => Except.error ("更新失败: " ++ e)
    else Except.ok "当前已是最新版本"
  | Except.error e => Except.error ("检查更新失败: " ++ e)

/-! ### Definitions taken from the specification's words, for
comparison with the source-derived definitions above -/

/-- Stated from the spec's words: semantic-versioning *precedence*
("numeric field comparison, then pre-release precedence rules"), under
which build metadata is ignored. -/
def specSemverPrecedenceCmp (a b : Version) : Ordering :=
  match compare a.major b.major with
  | Ordering.eq =>
    match compare a.minor b.minor with
    | Ordering.eq =>
      match compare a.patch b.patch with
      | Ordering.eq => prereleaseCmp a.pre b.pre
      | o => o
    | o => o
  | o => o

/-- Stated from the spec's words: "Normalize the resolved tag by
stripping one leading `v` character if present". -/
def stripOneLeadingV (s : String) : String :=
  match s.data with
  | 'v' :: rest => String.mk rest
  | _ => s

/-! ### Helper lemmas -/

/-- `dropWhile` splits its input into a satisfied prefix and a
remainder whose head (if any) fails the predicate. -/
theorem dropWhile_decomp (p : Char → Bool) (l : List Char) :
    ∃ pre, l = pre ++ l.dropWhile p ∧ (∀ c ∈ pre, p c = true) ∧
      (∀ c, (l.dropWhile p).head? = some c → p c = false) := by
  induction l with
  | nil => exact ⟨[], rfl, by simp, by simp⟩
  | cons a t ih =>
    cases hpa : p a with
    | false =>
      refine ⟨[], by simp [List.dropWhile_cons, hpa], by simp, ?_⟩
      intro c hc
      simp only [List.dropWhile_cons, hpa, Bool.false_eq_true, if_false,
        List.head?_cons, Option.some.injEq] at hc
      rw [← hc]
      exact hpa
    | true =>
      obtain ⟨pre, h1, h2, h3⟩ := ih
      refine ⟨a :: pre, ?_, ?_, ?_⟩
      · simp only [List.dropWhile_cons, hpa, if_true, List.cons_append]
        exact congrArg (a :: ·) h1
      · intro c hc
        rcases List.mem_cons.mp hc with hc | hc
        · rw [hc]; exact hpa
        · exact h2 c hc
      · intro c hc
        apply h3
        rw [← hc]
        simp [List.dropWhile_cons, hpa]

/-- Two strings whose first characters differ stay different after
appending arbitrary suffixes. -/
theorem append_ne_of_head_ne (p q : String) (c d : Char) (cs ds : List Char)
    (hp : p.data = c :: cs) (hq : q.data = d :: ds) (hcd : c ≠ d)
    (x y : String) : p ++ x ≠ q ++ y := by
  intro h
  have hdata := congrArg String.data h
  rw [String.data_append, String.data_append, hp, hq,
    List.cons_append, List.cons_append] at hdata
  injection hdata with h1 _
  exact hcd h1

/-! ### Claims -/

/-- C1 (amended): for every pair of version strings, if both parse as
strict semantic versions, `compare_versions` returns true exactly when
the candidate is greater than the current version under the semver
library's total order — semantic-versioning precedence with build
metadata as a final tiebreaker; if either fails to parse, it returns
true exactly when the strings are unequal and the candidate is
lexicographically greater.  `compare_versions "0.1.0" "0.1.1"` is
true, `compare_versions "0.2.0" "0.1.9"` is false and
`compare_versions "1.0.0" "1.0.0"` is false. -/
theorem C1_compare_versions_amended :
    (∀ current latest vc vl, parseVersion current = some vc →
      parseVersion latest = some vl →
      (compare_versions current latest = true ↔ Version.cmp vl vc = Ordering.gt)) ∧
    (∀ current latest,
      (parseVersion current = none ∨ parseVersion latest = none) →
      (compare_versions current latest = true ↔
        (current ≠ latest ∧ strGt latest current = true))) ∧
    compare_versions "0.1.0" "0.1.1" = true ∧
    compare_versions "0.2.0" "0.1.9" = false ∧
    compare_versions "1.0.0" "1.0.0" = false := by
  refine ⟨?_, ?_, by decide, by decide, by decide⟩
  · intro current latest vc vl hc hl
    simp only [compare_versions, hc, hl, versionGtBool]
    cases h : Version.cmp vl vc <;> simp [h]
  · intro current latest h
    have hfall : compare_versions current latest
        = ((current != latest) && strGt latest current) := by
      rcases h with h | h
      · simp only [compare_versions, h]
      · cases hc : parseVersion current <;> simp only [compare_versions, h, hc]
    rw [hfall]
    simp [Bool.and_eq_true, bne_iff_ne]

/-- C1 witness: the semver branch at `("1.0.0", "2.0.0")` and the
fallback branch at `("abc", "abd")`. -/
theorem C1_compare_versions_witness :
    compare_versions "1.0.0" "2.0.0" = true ∧
    compare_versions "abc" "abd" = true := by
  constructor
  · exact (C1_compare_versions_amended.1 "1.0.0" "2.0.0"
      ⟨1, 0, 0, [], []⟩ ⟨2, 0, 0, [], []⟩ (by decide) (by decide)).mpr (by decide)
  · exact (C1_compare_versions_amended.2.1 "abc" "abd"
      (Or.inl (by decide))).mpr ⟨by decide, by decide⟩

/-- C1 counterexample: `"1.0.0"` and `"1.0.0+a"` both parse strictly,
and under semantic-versioning precedence (which ignores build
metadata) the candidate is *not* greater — the two have equal
precedence — yet `compare_versions "1.0.0" "1.0.0+a"` returns true,
because the semver library's `Ord` breaks the tie on build metadata. -/
theorem C1_compare_versions_counterexample :
    parseVersion "1.0.0" = some ⟨1, 0, 0, [], []⟩ ∧
    parseVersion "1.0.0+a" = some ⟨1, 0, 0, [], ["a"]⟩ ∧
    specSemverPrecedenceCmp ⟨1, 0, 0, [], ["a"]⟩ ⟨1, 0, 0, [], []⟩ = Ordering.eq ∧
    compare_versions "1.0.0" "1.0.0+a" = true := by decide

/-- C2 counterexample: for a resolved tag `"vv1.2.3"` the pipeline's
candidate version is `"1.2.3"` — `trim_start_matches('v')` strips
*all* leading `v` characters — whereas stripping exactly one leading
`v` would yield `"v1.2.3"`. -/
theorem C2_tag_normalization_counterexample :
    check_for_updates (Except.ok ⟨"vv1.2.3", "https://x", "n", "b"⟩) "0.1.0"
      = Except.ok ⟨"0.1.0", "1.2.3", true, some "https://x"⟩ ∧
    stripOneLeadingV "vv1.2.3" = "v1.2.3" ∧
    ("1.2.3" : String) ≠ "v1.2.3" := by decide

/-- C2 (amended): for every resolved release tag, the pipeline's
candidate version equals the tag with *all* leading `v` characters
stripped (for tags with at most one leading `v` this is the same as
stripping one): the tag splits as a block of `v`s followed by the
candidate, and the candidate does not start with `v`.  Tag `"v1.2.3"`
yields `"1.2.3"` and tag `"1.2.3"` yields `"1.2.3"` unchanged. -/
theorem C2_tag_normalization_amended :
    (∀ release cur vi,
      check_for_updates (Except.ok release) cur = Except.ok vi →
      ∃ pre, release.tag_name.data = pre ++ vi.latest.data ∧
        (∀ c ∈ pre, c = 'v') ∧
        (∀ c, vi.latest.data.head? = some c → c ≠ 'v')) ∧
    trimStartMatchesV "v1.2.3" = "1.2.3" ∧
    trimStartMatchesV "1.2.3" = "1.2.3" := by
  refine ⟨?_, by decide, by decide⟩
  intro release cur vi h
  simp only [check_for_updates, Except.ok.injEq] at h
  obtain ⟨pre, h1, h2, h3⟩ :=
    dropWhile_decomp (fun c => c == 'v') release.tag_name.data
  refine ⟨pre, ?_, ?_, ?_⟩
  · rw [← h]
    exact h1
  · intro c hc
    have := h2 c hc
    simpa using this
  · intro c hc
    rw [← h] at hc
    have := h3 c hc
    simpa using this

/-- C2 witness: the amended statement applied to the release tag
`"v0.1.5"`, whose candidate version is `"0.1.5"`. -/
theorem C2_tag_normalization_witness :
    ∃ pre, ("v0.1.5" : String).data = pre ++ ("0.1.5" : String).data ∧
      (∀ c ∈ pre, c = 'v') ∧
      (∀ c, ("0.1.5" : String).data.head? = some c → c ≠ 'v') :=
  C2_tag_normalization_amended.1 ⟨"v0.1.5", "https://x", "n", "b"⟩ "0.1.0"
    ⟨"0.1.0", "0.1.5", true, some "https://x"⟩ (by decide)

/-- C3: the scraper looks for the 28-character path
`"/Godi13/mirror/releases/tag/"` but slices the markup at
`start + 29`, dropping the first character of the tag: on markup
containing `/Godi13/mirror/releases/tag/v0.1.5"` it returns
`some "0.1.5"`, not `some "v0.1.5"` as the claim (and the code's own
comment) demand. -/
theorem C3_extract_version_code_behavior :
    extract_version_from_html "<a href=\"/Godi13/mirror/releases/tag/v0.1.5\">"
      = some "0.1.5" ∧
    TAG_PATH.length = 28 ∧
    some ("0.1.5" : String) ≠ some "v0.1.5" := by decide

/-- C4: if the cache holds an entry for `"latest_release"` whose age is
strictly below 10 minutes, `fetch_latest_release` returns that record
identically, leaves the cache unchanged and makes no network call; if
the entry is 10 or more minutes old it is ignored — the primary
strategy is consulted — and a primary-strategy success overwrites the
entry with the current timestamp. -/
theorem C4_cache_freshness :
    ∀ (env : FetchEnv) (cache : Cache) (entry : CachedRelease),
      cacheGet cache "latest_release" = some entry →
      (env.now - entry.cached_at < minutesDur 10 →
        fetch_latest_release env cache = ⟨Except.ok entry.release, cache, 0, 0⟩) ∧
      (minutesDur 10 ≤ env.now - entry.cached_at →
        (fetch_latest_release env cache).api_calls = 1 ∧
        ∀ release, env.api_result = Except.ok release →
          fetch_latest_release env cache =
            ⟨Except.ok release,
              cacheInsert cache "latest_release" ⟨release, env.now⟩, 1, 0⟩) := by
  intro env cache entry hget
  have hmd : minutesDur 10 = 600 := by decide
  constructor
  · intro hfresh
    have hcond : entry.cached_at > env.now - minutesDur 10 := by
      rw [hmd] at hfresh ⊢; omega
    simp only [fetch_latest_release, hget]
    rw [if_pos hcond]
  · intro hstale
    have hcond : ¬ entry.cached_at > env.now - minutesDur 10 := by
      rw [hmd] at hstale ⊢; omega
    constructor
    · simp only [fetch_latest_release, hget]
      rw [if_neg hcond]
      cases ha : env.api_result with
      | ok release => rfl
      | error e => cases halt : env.alt_result <;> rfl
    · intro release hrel
      simp only [fetch_latest_release, hget, hrel]
      rw [if_neg hcond]

/-- C4 witness: an entry fetched 9 minutes ago (age 540 s) is returned
with no network call; an entry 11 minutes old (age 660 s) is ignored
and the primary success overwrites it with the current timestamp. -/
theorem C4_cache_freshness_witness :
    fetch_latest_release ⟨600, Except.error "api down", Except.error "alt down"⟩
        [("latest_release", ⟨⟨"v1", "u", "n", "b"⟩, 60⟩)]
      = ⟨Except.ok ⟨"v1", "u", "n", "b"⟩,
          [("latest_release", ⟨⟨"v1", "u", "n", "b"⟩, 60⟩)], 0, 0⟩ ∧
    fetch_latest_release ⟨720, Except.ok ⟨"v2", "u2", "n2", "b2"⟩, Except.error "alt down"⟩
        [("latest_release", ⟨⟨"v1", "u", "n", "b"⟩, 60⟩)]
      = ⟨Except.ok ⟨"v2", "u2", "n2", "b2"⟩,
          cacheInsert [("latest_release", ⟨⟨"v1", "u", "n", "b"⟩, 60⟩)]
            "latest_release" ⟨⟨"v2", "u2", "n2", "b2"⟩, 720⟩, 1, 0⟩ := by
  constructor
  · exact (C4_cache_freshness ⟨600, Except.error "api down", Except.error "alt down"⟩
      [("latest_release", ⟨⟨"v1", "u", "n", "b"⟩, 60⟩)]
      ⟨⟨"v1", "u", "n", "b"⟩, 60⟩ (by decide)).1 (by decide)
  · exact ((C4_cache_freshness ⟨720, Except.ok ⟨"v2", "u2", "n2", "b2"⟩, Except.error "alt down"⟩
      [("latest_release", ⟨⟨"v1", "u", "n", "b"⟩, 60⟩)]
      ⟨⟨"v1", "u", "n", "b"⟩, 60⟩ (by decide)).2 (by decide)).2
      ⟨"v2", "u2", "n2", "b2"⟩ rfl

/-- C5: when the resolved `VersionInfo` reports an available update and
the download-and-install step fails while a download page URL is
known, `trigger_update_check` returns a success (`Ok`) message that
contains both the manual-download link and the install error text; it
returns the hard `"更新失败"` error after a successful resolution only
when no download URL is known. -/
theorem C5_graceful_degradation :
    (∀ (vi : VersionInfo) (e url : String), vi.has_update = true →
      vi.download_url = some url →
      ∃ msg, trigger_update_check (Except.ok vi) (Except.error e) = Except.ok msg ∧
        (∃ a b, msg.data = a ++ url.data ++ b) ∧
        (∃ a b, msg.data = a ++ e.data ++ b)) ∧
    (∀ (vi : VersionInfo) (e : String), vi.has_update = true →
      vi.download_url = none →
      trigger_update_check (Except.ok vi) (Except.error e)
        = Except.error ("更新失败: " ++ e)) := by
  constructor
  · intro vi e url hu hd
    simp only [trigger_update_check, hu, hd, if_true]
    refine ⟨_, rfl, ?_, ?_⟩
    · exact ⟨("发现新版本！当前版本: " ++ vi.current ++ ", 最新版本: " ++ vi.latest
        ++ "\n自动安装失败: " ++ e ++ "\n请手动下载安装: ").data, [],
        by simp [String.data_append]⟩
    · exact ⟨("发现新版本！当前版本: " ++ vi.current ++ ", 最新版本: " ++ vi.latest
        ++ "\n自动安装失败: ").data,
        ("\n请手动下载安装: ").data ++ url.data,
        by simp [String.data_append]⟩
  · intro vi e hu hd
    simp only [trigger_update_check, hu, hd, if_true]

/-- C5 witness: the end-to-end scenario of the spec — current version
`"0.1.0"`, update to `"0.2.0"` available with the release page URL as
only download link, install fails — produces a success message
carrying the link and the error text, and the hard-error branch is
exercised by the same `VersionInfo` with no URL. -/
theorem C5_graceful_degradation_witness :
    (∃ msg, trigger_update_check
        (Except.ok ⟨"0.1.0", "0.2.0", true, some "https://github.com/Godi13/mirror/releases/tag/v0.2.0"⟩)
        (Except.error "找不到平台 aarch64 的安装包") = Except.ok msg ∧
      (∃ a b, msg.data = a ++ ("https://github.com/Godi13/mirror/releases/tag/v0.2.0" : String).data ++ b) ∧
      (∃ a b, msg.data = a ++ ("找不到平台 aarch64 的安装包" : String).data ++ b)) ∧
    trigger_update_check (Except.ok ⟨"0.1.0", "0.2.0", true, none⟩)
        (Except.error "no url")
      = Except.error ("更新失败: " ++ "no url") :=
  ⟨C5_graceful_degradation.1 ⟨"0.1.0", "0.2.0", true,
      some "https://github.com/Godi13/mirror/releases/tag/v0.2.0"⟩
      "找不到平台 aarch64 的安装包"
      "https://github.com/Godi13/mirror/releases/tag/v0.2.0" rfl rfl,
    C5_graceful_degradation.2 ⟨"0.1.0", "0.2.0", true, none⟩ "no url" rfl rfl⟩

/-- C6: in every `VersionInfo` successfully returned by
`check_for_updates`, `download_url` is `some` exactly when
`has_update` is true; when it is `some` it carries the release page
URL, and otherwise it is `none`. -/
theorem C6_download_url_iff_update :
    ∀ fetchRes cur vi, check_for_updates fetchRes cur = Except.ok vi →
      ((∃ url, vi.download_url = some url) ↔ vi.has_update = true) ∧
      (vi.has_update = true → ∃ release, fetchRes = Except.ok release ∧
        vi.download_url = some release.html_url) ∧
      (vi.has_update = false → vi.download_url = none) := by
  intro fetchRes cur vi h
  cases fetchRes with
  | error e => simp [check_for_updates] at h
  | ok release =>
    simp only [check_for_updates, Except.ok.injEq] at h
    rw [← h]
    cases hcmp : compare_versions cur (trimStartMatchesV release.tag_name) <;>
      simp [hcmp]

/-- C6 witness: the invariant at a concrete resolved release with an
available update. -/
theorem C6_download_url_iff_update_witness :
    ((∃ url, (⟨"0.1.0", "0.2.0", true, some "https://u"⟩ : VersionInfo).download_url
        = some url) ↔
      (⟨"0.1.0", "0.2.0", true, some "https://u"⟩ : VersionInfo).has_update = true) ∧
    ((⟨"0.1.0", "0.2.0", true, some "https://u"⟩ : VersionInfo).has_update = true →
      ∃ release, (Except.ok ⟨"v0.2.0", "https://u", "n", "b"⟩
            : Except String GitHubRelease)
          = Except.ok release ∧
        (⟨"0.1.0", "0.2.0", true, some "https://u"⟩ : VersionInfo).download_url
          = some release.html_url) ∧
    ((⟨"0.1.0", "0.2.0", true, some "https://u"⟩ : VersionInfo).has_update = false →
      (⟨"0.1.0", "0.2.0", true, some "https://u"⟩ : VersionInfo).download_url = none) :=
  C6_download_url_iff_update (Except.ok ⟨"v0.2.0", "https://u", "n", "b"⟩) "0.1.0"
    ⟨"0.1.0", "0.2.0", true, some "https://u"⟩ (by decide)

/-- C7: whenever the primary strategy fails, `fetch_latest_release`
leaves the cache exactly as it found it — in particular a resolution
that succeeds via the page-scrape strategy does not write to the cache
— and conversely, a call that changes the cache did so on the
primary-strategy success path. -/
theorem C7_scrape_does_not_cache :
    (∀ (env : FetchEnv) (cache : Cache) (e : String),
      env.api_result = Except.error e →
      (fetch_latest_release env cache).cache = cache) ∧
    (∀ (env : FetchEnv) (cache : Cache),
      (fetch_latest_release env cache).cache ≠ cache →
      ∃ release, env.api_result = Except.ok release ∧
        (fetch_latest_release env cache).result = Except.ok release ∧
        (fetch_latest_release env cache).cache
          = cacheInsert cache "latest_release" ⟨release, env.now⟩) := by
  constructor
  · intro env cache e ha
    cases hget : cacheGet cache "latest_release" with
    | none =>
      simp only [fetch_latest_release, ha, hget]
      cases halt : env.alt_result <;> rfl
    | some cached =>
      by_cases hcond : cached.cached_at > env.now - minutesDur 10
      · simp only [fetch_latest_release, ha, hget]
        rw [if_pos hcond]
      · simp only [fetch_latest_release, ha, hget]
        rw [if_neg hcond]
        cases halt : env.alt_result <;> rfl
  · intro env cache hne
    cases ha : env.api_result with
    | error e =>
      exfalso
      apply hne
      cases hget : cacheGet cache "latest_release" with
      | none =>
        simp only [fetch_latest_release, ha, hget]
        cases halt : env.alt_result <;> rfl
      | some cached =>
        by_cases hcond : cached.cached_at > env.now - minutesDur 10
        · simp only [fetch_latest_release, ha, hget]
          rw [if_pos hcond]
        · simp only [fetch_latest_release, ha, hget]
          rw [if_neg hcond]
          cases halt : env.alt_result <;> rfl
    | ok release =>
      refine ⟨release, rfl, ?_⟩
      cases hget : cacheGet cache "latest_release" with
      | none =>
        simp only [fetch_latest_release, ha, hget]
        simp
      | some cached =>
        by_cases hcond : cached.cached_at > env.now - minutesDur 10
        · exfalso
          apply hne
          simp only [fetch_latest_release, ha, hget]
          rw [if_pos hcond]
        · simp only [fetch_latest_release, ha, hget]
          rw [if_neg hcond]
          simp

/-- C7 witness: with an empty cache, a failed primary strategy and a
successful scrape, the cache after the call equals the cache before. -/
theorem C7_scrape_does_not_cache_witness :
    (fetch_latest_release
      ⟨0, Except.error "GitHub API rate limit exceeded",
        Except.ok ⟨"v0.1.5", "https://github.com/Godi13/mirror/releases/tag/v0.1.5",
          "Mirror v0.1.5", "Retrieved from releases page"⟩⟩ []).cache = [] :=
  C7_scrape_does_not_cache.1
    ⟨0, Except.error "GitHub API rate limit exceeded",
      Except.ok ⟨"v0.1.5", "https://github.com/Godi13/mirror/releases/tag/v0.1.5",
        "Mirror v0.1.5", "Retrieved from releases page"⟩⟩ []
    "GitHub API rate limit exceeded" rfl

/-- C8: an HTTP 403 response whose `x-ratelimit-remaining` header
reads `"0"` makes `try_github_api` return the distinct rate-limited
error; every other non-success response yields a strategy error whose
message carries the status code and the response body. -/
theorem C8_rate_limit_detection :
    ∀ resp : HttpResponse,
      (resp.status = 403 → resp.ratelimit_remaining = some "0" →
        try_github_api resp = Except.error rateLimitErrMsg) ∧
      (statusIsSuccess resp.status = false →
        ¬ (resp.status = 403 ∧ resp.ratelimit_remaining = some "0") →
        ∃ m, try_github_api resp = Except.error m ∧
          (∃ a b, m.data = a ++ (statusDisplay resp.status).data ++ b) ∧
          (∃ a b, m.data = a ++ resp.body.data ++ b)) := by
  intro resp
  constructor
  · intro h403 hrem
    simp [try_github_api, rateLimitRemainingZero, h403, hrem]
  · intro hns hnot
    have hzero : (resp.status == 403 && rateLimitRemainingZero resp) = false := by
      by_cases h403 : resp.status = 403
      · have hrem : rateLimitRemainingZero resp = false := by
          cases hr : resp.ratelimit_remaining with
          | none => simp [rateLimitRemainingZero, hr]
          | some r =>
            simp only [rateLimitRemainingZero, hr]
            have : r ≠ "0" := fun hr0 => hnot ⟨h403, by rw [hr, hr0]⟩
            simpa using this
        simp [hrem]
      · simp [h403]
    refine ⟨"GitHub API error: " ++ statusDisplay resp.status ++ " - " ++ resp.body,
      ?_, ?_, ?_⟩
    · simp [try_github_api, hzero, hns]
    · exact ⟨("GitHub API error: " : String).data, (" - " ++ resp.body).data,
        by simp [String.data_append]⟩
    · exact ⟨("GitHub API error: " ++ statusDisplay resp.status ++ " - ").data, [],
        by simp [String.data_append]⟩

/-- C8 witness: the rate-limited 403 and a generic 500 with body. -/
theorem C8_rate_limit_detection_witness :
    try_github_api ⟨403, some "0", "rate limited", none⟩
      = Except.error rateLimitErrMsg ∧
    ∃ m, try_github_api ⟨500, none, "oops", none⟩ = Except.error m ∧
      (∃ a b, m.data = a ++ (statusDisplay 500).data ++ b) ∧
      (∃ a b, m.data = a ++ ("oops" : String).data ++ b) :=
  ⟨(C8_rate_limit_detection ⟨403, some "0", "rate limited", none⟩).1 rfl rfl,
    (C8_rate_limit_detection ⟨500, none, "oops", none⟩).2 (by decide)
      (by simp)⟩

/-- C9: when the cache cannot serve the request and the primary
strategy fails — with a rate-limit error or any other — the secondary
strategy is consulted exactly once; if it also fails, the call returns
the terminal all-sources-failed error, whose fixed message mentions
network issues and rate limits. -/
theorem C9_fallback_chain :
    ∀ (env : FetchEnv) (cache : Cache) (e : String),
      env.api_result = Except.error e →
      (cacheGet cache "latest_release" = none ∨
        ∃ entry, cacheGet cache "latest_release" = some entry ∧
          minutesDur 10 ≤ env.now - entry.cached_at) →
      (fetch_latest_release env cache).alt_calls = 1 ∧
      (∀ e2, env.alt_result = Except.error e2 →
        (fetch_latest_release env cache).result = Except.error allFailedMsg) ∧
      (∃ a b, allFailedMsg.data = a ++ ("network issues" : String).data ++ b) ∧
      (∃ a b, allFailedMsg.data = a ++ ("rate limits" : String).data ++ b) := by
  intro env cache e ha hmiss
  have hnet : fetch_latest_release env cache
      = (match env.alt_result with
         | Except.ok release => ⟨Except.ok release, cache, 1, 1⟩
         | Except.error _ => ⟨Except.error allFailedMsg, cache, 1, 1⟩) := by
    rcases hmiss with hget | ⟨entry, hget, hstale⟩
    · simp only [fetch_latest_release, hget, ha]
    · have hcond : ¬ entry.cached_at > env.now - minutesDur 10 := by
        have hmd : minutesDur 10 = 600 := by decide
        rw [hmd] at hstale ⊢; omega
      simp only [fetch_latest_release, hget, ha]
      rw [if_neg hcond]
  refine ⟨?_, ?_, ?_, ?_⟩
  · rw [hnet]
    cases env.alt_result <;> rfl
  · intro e2 halt
    rw [hnet, halt]
  · exact ⟨("All update check methods failed. This could be due to " : String).data,
      (" or GitHub API rate limits. Please try again later." : String).data,
      by decide⟩
  · exact
      ⟨("All update check methods failed. This could be due to network issues or GitHub API " : String).data,
        (". Please try again later." : String).data, by decide⟩

/-- C9 witness: empty cache, rate-limited primary, failing scrape:
the secondary strategy is consulted once and the terminal message is
returned. -/
theorem C9_fallback_chain_witness :
    (fetch_latest_release
      ⟨0, Except.error "GitHub API rate limit exceeded",
        Except.error "All alternative sources failed"⟩ []).alt_calls = 1 ∧
    (fetch_latest_release
      ⟨0, Except.error "GitHub API rate limit exceeded",
        Except.error "All alternative sources failed"⟩ []).result
      = Except.error allFailedMsg := by
  have h := C9_fallback_chain
    ⟨0, Except.error "GitHub API rate limit exceeded",
      Except.error "All alternative sources failed"⟩ []
    "GitHub API rate limit exceeded" rfl (Or.inl rfl)
  exact ⟨h.1, h.2.1 "All alternative sources failed" rfl⟩

/-- C10: whenever `check_for_updates` succeeds with `has_update` true,
`download_url` is necessarily `some`; consequently the hard-error
`"更新失败"` branch of `trigger_update_check` is unreachable when its
check result comes from `check_for_updates`, and every install
failure after a successful resolution with an update yields the
manual-link success message. -/
theorem C10_hard_error_unreachable :
    (∀ fetchRes cur vi, check_for_updates fetchRes cur = Except.ok vi →
      vi.has_update = true → vi.download_url.isSome = true) ∧
    (∀ fetchRes cur installRes e,
      trigger_update_check (check_for_updates fetchRes cur) installRes ≠
        Except.error ("更新失败: " ++ e)) ∧
    (∀ fetchRes cur vi e, check_for_updates fetchRes cur = Except.ok vi →
      vi.has_update = true →
      ∃ msg, trigger_update_check (check_for_updates fetchRes cur) (Except.error e)
        = Except.ok msg) := by
  refine ⟨?_, ?_, ?_⟩
  · intro fetchRes cur vi h hu
    cases fetchRes with
    | error e => simp [check_for_updates] at h
    | ok release =>
      simp only [check_for_updates, Except.ok.injEq] at h
      rw [← h] at hu ⊢
      simp only at hu
      simp [hu]
  · intro fetchRes cur installRes e
    cases fetchRes with
    | error e2 =>
      simp only [check_for_updates, trigger_update_check]
      intro h
      injection h with h1
      exact append_ne_of_head_ne "检查更新失败: " "更新失败: " '检' '更'
        ("查更新失败: " : String).data ("新失败: " : String).data
        (by decide) (by decide) (by decide)
        ("Failed to fetch latest release: " ++ e2) e h1
    | ok release =>
      simp only [check_for_updates, trigger_update_check]
      cases hcmp : compare_versions cur (trimStartMatchesV release.tag_name) with
      | false => simp [hcmp]
      | true =>
        simp only [hcmp, if_true]
        cases installRes <;> simp
  · intro fetchRes cur vi e h hu
    cases fetchRes with
    | error e2 => simp [check_for_updates] at h
    | ok release =>
      simp only [check_for_updates, Except.ok.injEq] at h
      have hcmp : compare_versions cur (trimStartMatchesV release.tag_name) = true := by
        rw [← h] at hu
        simpa using hu
      simp [check_for_updates, trigger_update_check, hcmp]

/-- C10 witness: a resolved release tag `"v0.2.0"` against current
version `"0.1.0"` with a failing install yields a success message. -/
theorem C10_hard_error_unreachable_witness :
    ∃ msg, trigger_update_check
        (check_for_updates (Except.ok ⟨"v0.2.0", "https://u", "n", "b"⟩) "0.1.0")
        (Except.error "找不到平台 x64 的安装包")
      = Except.ok msg :=
  C10_hard_error_unreachable.2.2 (Except.ok ⟨"v0.2.0", "https://u", "n", "b"⟩)
    "0.1.0" ⟨"0.1.0", "0.2.0", true, some "https://u"⟩ "找不到平台 x64 的安装包"
    (by decide) rfl

end Mirror
